import Mathlib

/-!
Shallow embedding of the image-proxy transcode decision pipeline
(repository `server-1`): five Node.js handler variants built on
`node-fetch` and `sharp`.

External effects (the HTTP fetch, the codec library `sharp`, the URL
parser) are modelled as explicit parameters of each handler:
* a fetch that throws (network error / timeout abort) is an
  `Option FetchResponse` that is `none`;
* `new URL(imageUrl)` throwing is a boolean `urlParses = false`;
* `sharp(buffer).metadata()` throwing (undecodable input) is
  `metadata = none`;
* an encoder pipeline (`.webp(...).toBuffer()` etc.) that throws is an
  encoder function returning `none`.
Buffers are byte lists; header values that the handlers set are carried
in the `Outcome` constructors.
-/

set_option maxHeartbeats 1000000
set_option maxRecDepth 8000

namespace ImageProxy

/-- a Node `Buffer`: a sequence of bytes -/
abbrev Buffer := List Nat

/-- models JavaScript `s.includes(pattern)` (substring test) -/
def includes (s pattern : String) : Bool :=
  decide (pattern.toList <:+: s.toList)

/-- models JavaScript `s.startsWith(pattern)` -/
def startsWithJs (s pattern : String) : Bool :=
  decide (pattern.toList <+: s.toList)

/-- the fields of a `node-fetch` response that the handlers read:
`response.ok`, `response.headers.get('content-type')`, and the downloaded
body (`arrayBuffer`/`buffer`). -/
structure FetchResponse where
  ok : Bool
  contentType : Option String
  body : Buffer
  deriving DecidableEq, Repr

/-- the fields of `await sharp(buffer).metadata()` that the handlers read -/
structure SharpMetadata where
  pages : Option Nat
  format : Option String
  width : Option Nat
  height : Option Nat
  deriving DecidableEq, Repr

/-- the response produced by a handler invocation.  `compressed` and
`passthrough` carry the served body, the `Content-Type` header and the
`X-Original-Size` / `X-Compressed-Size` headers; `redirect` carries the
`Location` header of the 302 response; `placeholder` is the 200
`error.png` fallback of `api/index.js`; `debugReport` is the JSON report
of `api/index.js` in debug mode (decision string, sizes, savings,
metadata fields). -/
inductive Outcome where
  | noContent : Outcome
  | missingParam : Outcome
  | compressed (body : Buffer) (contentType : String)
      (xOriginalSize xCompressedSize : Nat) : Outcome
  | passthrough (body : Buffer) (contentType : String)
      (xOriginalSize xCompressedSize : Nat) : Outcome
  | redirect (location : String) : Outcome
  | placeholder : Outcome
  | debugReport (decision : String) (originalSize compressedSize : Nat)
      (savings : Int) (format : Option String) (width height : Option Nat) : Outcome
  deriving DecidableEq, Repr

/-- `MAX_INPUT_SIZE_BYTES = 30 * 1024 * 1024`, identical in all variants -/
def MAX_INPUT_SIZE_BYTES : Nat := 30 * 1024 * 1024

/-- `TARGET_SIZE_STRICT = 100 * 1024` (compress.js, size-targeted variant) -/
def TARGET_SIZE_STRICT : Nat := 100 * 1024

/-- `TARGET_SIZE_RELAXED = 150 * 1024` (compress.js, size-targeted variant) -/
def TARGET_SIZE_RELAXED : Nat := 150 * 1024

/-- the JavaScript test `metadata.pages && metadata.pages > 1`:
an absent `pages` field is falsy, `pages = 0` is falsy, otherwise the
comparison `pages > 1` decides. -/
def pagesGtOne : Option Nat → Bool
  | none => false
  | some n => decide (1 < n)

/-- helper `sendCompressed(res, buffer, originalSize, compressedSize,
contentType)`: sets `X-Original-Size` to the original size and
`X-Compressed-Size` to the compressed size (identical in all variants up
to the content-type argument, which `api/index.js` and the second
`part_000` handler fix at their codec's type). -/
def sendCompressed (buffer : Buffer) (originalSize compressedSize : Nat)
    (contentType : String) : Outcome :=
  Outcome.compressed buffer contentType originalSize compressedSize

/-- helper `sendOriginal(res, buffer, contentType)`: serves the buffer
unchanged with both `X-Original-Size` and `X-Compressed-Size` set to
`buffer.length` (identical in all variants). -/
def sendOriginal (buffer : Buffer) (contentType : String) : Outcome :=
  Outcome.passthrough buffer contentType buffer.length buffer.length

/-- the image body served by an outcome, if any -/
def servedBody : Outcome → Option Buffer
  | Outcome.compressed b _ _ _ => some b
  | Outcome.passthrough b _ _ _ => some b
  | _ => none

/-- the `for (let i = 0; i < 8; i++)` loop body of `compressToTargetSize`
(compress.js, size-targeted variant).  `encode q` models
`baseProcessor.clone().webp({ quality: q, effort: 6 }).toBuffer()`.
State: remaining iterations (`8 - i`), `minQuality`, `maxQuality`,
`bestBuffer`.  `currentQuality = Math.floor((minQuality+maxQuality)/2)`;
the loop breaks when `currentQuality < minQuality`.  Returns the final
`bestBuffer` together with the number of encodes performed. -/
def searchLoop (encode : Nat → Buffer) (targetSize : Nat) :
    Nat → Nat → Nat → Option Buffer → Option Buffer × Nat
  | 0, _, _, best => (best, 0)
  | fuel + 1, minQuality, maxQuality, best =>
    if (minQuality + maxQuality) / 2 < minQuality then (best, 0)
    else
      if (encode ((minQuality + maxQuality) / 2)).length ≤ targetSize then
        let r := searchLoop encode targetSize fuel
          ((minQuality + maxQuality) / 2 + 1) maxQuality
          (some (encode ((minQuality + maxQuality) / 2)))
        (r.1, r.2 + 1)
      else
        let r := searchLoop encode targetSize fuel
          minQuality ((minQuality + maxQuality) / 2 - 1) best
        (r.1, r.2 + 1)

/-- `compressToTargetSize(inputBuffer, targetSize)` of compress.js
(size-targeted variant): bounded binary search over qualities starting
from `minQuality = 5`, `maxQuality = 100`; if no probed quality met the
target (`bestBuffer` still null) it returns one more encode at quality 5
as best effort. -/
def compressToTargetSize (encode : Nat → Buffer) (targetSize : Nat) : Buffer :=
  match (searchLoop encode targetSize 8 5 100 none).1 with
  | some bestBuffer => bestBuffer
  | none => encode 5

/-- number of encodes performed inside the search loop of
`compressToTargetSize` -/
def searchProbes (encode : Nat → Buffer) (targetSize : Nat) : Nat :=
  (searchLoop encode targetSize 8 5 100 none).2

/-- the search loop of `compressToTargetSize` over a fallible encoder:
`encode q = none` models `toBuffer()` rejecting at quality `q`, which in
the source propagates the exception out of `compressToTargetSize` at
once (outer `none`); `some best` is a completed loop with its final
`bestBuffer`. -/
def searchLoopE (encode : Nat → Option Buffer) (targetSize : Nat) :
    Nat → Nat → Nat → Option Buffer → Option (Option Buffer)
  | 0, _, _, best => some best
  | fuel + 1, minQuality, maxQuality, best =>
    if (minQuality + maxQuality) / 2 < minQuality then some best
    else
      match encode ((minQuality + maxQuality) / 2) with
      | none => none
      | some currentBuffer =>
        if currentBuffer.length ≤ targetSize then
          searchLoopE encode targetSize fuel
            ((minQuality + maxQuality) / 2 + 1) maxQuality
            (some currentBuffer)
        else
          searchLoopE encode targetSize fuel
            minQuality ((minQuality + maxQuality) / 2 - 1) best

/-- `compressToTargetSize` over a fallible encoder, as the size-targeted
handler calls it: a rejection inside the loop, or inside the best-effort
quality-5 fallback encode, propagates as `none` (reaching the handler's
`catch`); otherwise the result buffer is returned.  Restricted to an
encoder that never throws this agrees with `compressToTargetSize`
(theorem `compressToTargetSizeE_total`). -/
def compressToTargetSizeE (encode : Nat → Option Buffer)
    (targetSize : Nat) : Option Buffer :=
  match searchLoopE encode targetSize 8 5 100 none with
  | none => none
  | some (some bestBuffer) => some bestBuffer
  | some none => encode 5

/-- the winner selection of the dual-codec race (`part_000`, first
handler, lines 77–84): the AVIF candidate wins exactly when its byte
length is strictly smaller, otherwise the WebP candidate wins; the
winner's content-type accompanies it. -/
def raceWinner (avifBuffer webpBuffer : Buffer) : Buffer × String :=
  if avifBuffer.length < webpBuffer.length then (avifBuffer, "image/avif")
  else (webpBuffer, "image/webp")

/-- the HEAD-request test of `api/index.js`:
`contentLength && parseInt(contentLength, 10) > MAX_INPUT_SIZE_BYTES`.
An absent (or non-numeric, hence NaN) `content-length` header is modelled
as `none` and rejects nothing. -/
def declaredTooLarge : Option Nat → Bool
  | none => false
  | some n => decide (MAX_INPUT_SIZE_BYTES < n)

namespace CompressWebp

/-- the handler of `api/compress.js` (first document): single-codec WebP
at fixed quality 5 with redirect fallback.  Control flow in source
order: favicon guard, missing-parameter check, then inside `try`: URL
parse, fetch, `response.ok`, content-type check, empty-body check,
30 MiB size check, metadata decode, animation guard, one WebP encode,
size comparison; any failure reaches `catch`, which sets `Location` to
the raw `url` query value and responds 302. -/
def handler (reqUrl : String) (queryUrl : Option String) (urlParses : Bool)
    (fetched : Option FetchResponse) (metadata : Option SharpMetadata)
    (webpEncode : Buffer → Option Buffer) : Outcome :=
  if includes reqUrl "favicon" then Outcome.noContent
  else
    match queryUrl with
    | none => Outcome.missingParam
    | some imageUrl =>
      if urlParses = false then Outcome.redirect imageUrl
      else
        match fetched with
        | none => Outcome.redirect imageUrl
        | some response =>
          if response.ok = false then Outcome.redirect imageUrl
          else
            match response.contentType with
            | none => Outcome.redirect imageUrl
            | some originalContentTypeHeader =>
              if startsWithJs originalContentTypeHeader "image/" = false then
                Outcome.redirect imageUrl
              else
                if response.body.length = 0 then Outcome.redirect imageUrl
                else if MAX_INPUT_SIZE_BYTES < response.body.length then
                  Outcome.redirect imageUrl
                else
                  match metadata with
                  | none => Outcome.redirect imageUrl
                  | some md =>
                    if pagesGtOne md.pages then
                      sendOriginal response.body originalContentTypeHeader
                    else
                      match webpEncode response.body with
                      | none => Outcome.redirect imageUrl
                      | some compressedBuffer =>
                        if compressedBuffer.length < response.body.length then
                          sendCompressed compressedBuffer response.body.length
                            compressedBuffer.length "image/webp"
                        else sendOriginal response.body originalContentTypeHeader

end CompressWebp

namespace TargetSize

/-- the handler of `api/compress.js` (second document): size-targeted
WebP search with redirect fallback.  Same guards as the first document;
the target size is 150 KiB when `mode === 'relaxed'`, else 100 KiB.
`webpEncodeAt buffer q` models the quality-`q` WebP encode of the
preprocessed `buffer`; `none` is a `toBuffer()` rejection, which
propagates out of `compressToTargetSize` to the `catch` and produces the
302 redirect.  When no encode throws, the JavaScript final test
`compressedBuffer && compressedBuffer.length < originalSize` reduces to
the length comparison because `compressToTargetSize` then returns a
Buffer object, which is truthy. -/
def handler (reqUrl : String) (queryUrl mode : Option String) (urlParses : Bool)
    (fetched : Option FetchResponse) (metadata : Option SharpMetadata)
    (webpEncodeAt : Buffer → Nat → Option Buffer) : Outcome :=
  if includes reqUrl "favicon" then Outcome.noContent
  else
    match queryUrl with
    | none => Outcome.missingParam
    | some imageUrl =>
      if urlParses = false then Outcome.redirect imageUrl
      else
        match fetched with
        | none => Outcome.redirect imageUrl
        | some response =>
          if response.ok = false then Outcome.redirect imageUrl
          else
            match response.contentType with
            | none => Outcome.redirect imageUrl
            | some originalContentTypeHeader =>
              if startsWithJs originalContentTypeHeader "image/" = false then
                Outcome.redirect imageUrl
              else
                if response.body.length = 0 then Outcome.redirect imageUrl
                else if MAX_INPUT_SIZE_BYTES < response.body.length then
                  Outcome.redirect imageUrl
                else
                  match metadata with
                  | none => Outcome.redirect imageUrl
                  | some md =>
                    if pagesGtOne md.pages then
                      sendOriginal response.body originalContentTypeHeader
                    else
                      match compressToTargetSizeE (webpEncodeAt response.body)
                          (if mode = some "relaxed" then TARGET_SIZE_RELAXED
                           else TARGET_SIZE_STRICT) with
                      | none => Outcome.redirect imageUrl
                      | some compressedBuffer =>
                        if compressedBuffer.length < response.body.length then
                          sendCompressed compressedBuffer
                            response.body.length compressedBuffer.length
                            "image/webp"
                        else
                          sendOriginal response.body originalContentTypeHeader

end TargetSize

namespace IndexAvif

/-- the `content-length` header of the HEAD response of `api/index.js`,
parsed with `parseInt` (absent or non-numeric modelled as `none`) -/
structure HeadResponse where
  contentLength : Option Nat
  deriving DecidableEq, Repr

/-- the handler of `api/index.js`: single-codec AVIF at quality 55 with
placeholder fallback and a debug mode.  No favicon guard and no URL
parse.  Inside `try`: HEAD request (its declared `content-length`, when
present, is compared against 30 MiB), GET fetch, `response.ok`; the
content-type is NOT validated — `response.headers.get('content-type')
|| 'image/jpeg'` substitutes a default; no empty-body and no
post-download size check; metadata decode, animation guard, one AVIF
encode; with `debug === 'true'` a JSON report is returned, otherwise the
size comparison decides.  Any failure reaches `catch`, which serves the
local `error.png` placeholder with status 200. -/
def handler (queryUrl debug : Option String)
    (headResult : Option HeadResponse)
    (fetched : Option FetchResponse)
    (metadata : Option SharpMetadata)
    (avifEncode : Buffer → Option Buffer) : Outcome :=
  match queryUrl with
  | none => Outcome.missingParam
  | some _imageUrl =>
    match headResult with
    | none => Outcome.placeholder
    | some headResponse =>
      if declaredTooLarge headResponse.contentLength then Outcome.placeholder
      else
        match fetched with
        | none => Outcome.placeholder
        | some response =>
          if response.ok = false then Outcome.placeholder
          else
            match metadata with
            | none => Outcome.placeholder
            | some md =>
              if pagesGtOne md.pages then
                sendOriginal response.body (response.contentType.getD "image/jpeg")
              else
                match avifEncode response.body with
                | none => Outcome.placeholder
                | some compressedBuffer =>
                  if debug = some "true" then
                    Outcome.debugReport
                      (if compressedBuffer.length < response.body.length then
                        "Optimized" else "Passthrough (Original better)")
                      response.body.length compressedBuffer.length
                      ((response.body.length : Int) - compressedBuffer.length)
                      md.format md.width md.height
                  else
                    if compressedBuffer.length < response.body.length then
                      sendCompressed compressedBuffer response.body.length
                        compressedBuffer.length "image/avif"
                    else
                      sendOriginal response.body
                        (response.contentType.getD "image/jpeg")

end IndexAvif

namespace DualRace

/-- the handler of `part_000` (first document): dual-codec race, AVIF at
quality 45 against WebP at quality 50, over clones of the same
preprocessed pixel buffer, with redirect fallback.  Same guards as
`api/compress.js`; `Promise.all` rejects when either encode throws, so
either encoder returning `none` reaches the `catch`.  The smaller
candidate wins (`raceWinner`) and is compared against the original. -/
def handler (reqUrl : String) (queryUrl : Option String) (urlParses : Bool)
    (fetched : Option FetchResponse) (metadata : Option SharpMetadata)
    (avifEncode webpEncode : Buffer → Option Buffer) : Outcome :=
  if includes reqUrl "favicon" then Outcome.noContent
  else
    match queryUrl with
    | none => Outcome.missingParam
    | some imageUrl =>
      if urlParses = false then Outcome.redirect imageUrl
      else
        match fetched with
        | none => Outcome.redirect imageUrl
        | some response =>
          if response.ok = false then Outcome.redirect imageUrl
          else
            match response.contentType with
            | none => Outcome.redirect imageUrl
            | some originalContentTypeHeader =>
              if startsWithJs originalContentTypeHeader "image/" = false then
                Outcome.redirect imageUrl
              else
                if response.body.length = 0 then Outcome.redirect imageUrl
                else if MAX_INPUT_SIZE_BYTES < response.body.length then
                  Outcome.redirect imageUrl
                else
                  match metadata with
                  | none => Outcome.redirect imageUrl
                  | some md =>
                    if pagesGtOne md.pages then
                      sendOriginal response.body originalContentTypeHeader
                    else
                      match avifEncode response.body, webpEncode response.body with
                      | some avifBuffer, some webpBuffer =>
                        if (raceWinner avifBuffer webpBuffer).1.length
                            < response.body.length then
                          sendCompressed (raceWinner avifBuffer webpBuffer).1
                            response.body.length
                            (raceWinner avifBuffer webpBuffer).1.length
                            (raceWinner avifBuffer webpBuffer).2
                        else sendOriginal response.body originalContentTypeHeader
                      | _, _ => Outcome.redirect imageUrl

end DualRace

namespace Part000Webp

/-- the handler of `part_000` (second document): single-codec WebP at
fixed quality 5 with redirect fallback (`res.status(302).end()`).  Same
guards as `api/compress.js` EXCEPT that after the empty-body check there
is no `MAX_INPUT_SIZE_BYTES` comparison: this variant never rejects an
oversized downloaded body. -/
def handler (reqUrl : String) (queryUrl : Option String) (urlParses : Bool)
    (fetched : Option FetchResponse) (metadata : Option SharpMetadata)
    (webpEncode : Buffer → Option Buffer) : Outcome :=
  if includes reqUrl "favicon" then Outcome.noContent
  else
    match queryUrl with
    | none => Outcome.missingParam
    | some imageUrl =>
      if urlParses = false then Outcome.redirect imageUrl
      else
        match fetched with
        | none => Outcome.redirect imageUrl
        | some response =>
          if response.ok = false then Outcome.redirect imageUrl
          else
            match response.contentType with
            | none => Outcome.redirect imageUrl
            | some originalContentTypeHeader =>
              if startsWithJs originalContentTypeHeader "image/" = false then
                Outcome.redirect imageUrl
              else
                if response.body.length = 0 then Outcome.redirect imageUrl
                else
                  match metadata with
                  | none => Outcome.redirect imageUrl
                  | some md =>
                    if pagesGtOne md.pages then
                      sendOriginal response.body originalContentTypeHeader
                    else
                      match webpEncode response.body with
                      | none => Outcome.redirect imageUrl
                      | some compressedBuffer =>
                        if compressedBuffer.length < response.body.length then
                          sendCompressed compressedBuffer response.body.length
                            compressedBuffer.length "image/webp"
                        else sendOriginal response.body originalContentTypeHeader

end Part000Webp

/-- adjacent-step check that an encoder's output size strictly decreases
in the quality parameter across the whole search range `[5, 100]` -/
def strictlyDecreasingOn5To100 (encode : Nat → Buffer) : Bool :=
  (List.range 95).all
    (fun i => (encode (6 + i)).length < (encode (5 + i)).length)

/-- an encoder whose output size is strictly decreasing in the quality
parameter: `200 - q` bytes at quality `q` -/
def decreasingEncoder : Nat → Buffer := fun q => List.replicate (200 - q) 7

/-- the number of encodes performed by the search loop never exceeds the
iteration bound -/
theorem searchLoop_probes_le (encode : Nat → Buffer) (targetSize : Nat) :
    ∀ fuel minQuality maxQuality best,
      (searchLoop encode targetSize fuel minQuality maxQuality best).2 ≤ fuel := by
  intro fuel
  induction fuel with
  | zero => intro minQ maxQ best; simp [searchLoop]
  | succ fuel ih =>
    intro minQ maxQ best
    rw [searchLoop]
    by_cases hmid : (minQ + maxQ) / 2 < minQ
    · simp [hmid]
    · by_cases hlen : (encode ((minQ + maxQ) / 2)).length ≤ targetSize
      · simpa [hmid, hlen] using ih ((minQ + maxQ) / 2 + 1) maxQ
          (some (encode ((minQ + maxQ) / 2)))
      · simpa [hmid, hlen] using ih minQ ((minQ + maxQ) / 2 - 1) best

/-- over an encoder that never throws, the fallible search loop completes
and computes the same `bestBuffer` as the total one -/
theorem searchLoopE_total (encode : Nat → Buffer) (targetSize : Nat) :
    ∀ fuel minQuality maxQuality best,
      searchLoopE (fun q => some (encode q)) targetSize fuel
          minQuality maxQuality best =
        some (searchLoop encode targetSize fuel
          minQuality maxQuality best).1 := by
  intro fuel
  induction fuel with
  | zero => intro minQ maxQ best; rw [searchLoopE, searchLoop]
  | succ fuel ih =>
    intro minQ maxQ best
    rw [searchLoopE, searchLoop]
    by_cases hmid : (minQ + maxQ) / 2 < minQ
    · simp [hmid]
    · by_cases hlen : (encode ((minQ + maxQ) / 2)).length ≤ targetSize
      · simpa [hmid, hlen] using ih ((minQ + maxQ) / 2 + 1) maxQ
          (some (encode ((minQ + maxQ) / 2)))
      · simpa [hmid, hlen] using ih minQ ((minQ + maxQ) / 2 - 1) best

/-- over an encoder that never throws, the handler's fallible
`compressToTargetSize` agrees with the total one -/
theorem compressToTargetSizeE_total (encode : Nat → Buffer)
    (targetSize : Nat) :
    compressToTargetSizeE (fun q => some (encode q)) targetSize =
      some (compressToTargetSize encode targetSize) := by
  unfold compressToTargetSizeE compressToTargetSize
  rw [searchLoopE_total]
  cases h : (searchLoop encode targetSize 8 5 100 none).1 <;> simp

/-- main invariant of the bounded binary search: when fitting the target
is monotone with threshold `Q` (every quality up to `Q` fits, none
above), the loop returns the encode at exactly quality `Q`, provided the
bounds bracket `Q`, `bestBuffer` records the encode just below the lower
bound, and enough fuel remains to cross the bounds. -/
theorem searchLoop_finds_highest (encode : Nat → Buffer) (targetSize Q : Nat)
    (hfit : ∀ q, 5 ≤ q → q ≤ 100 → ((encode q).length ≤ targetSize ↔ q ≤ Q))
    (hQ5 : 5 ≤ Q) (hQ100 : Q ≤ 100) :
    ∀ fuel minQuality maxQuality best,
      5 ≤ minQuality → maxQuality ≤ 100 →
      minQuality ≤ Q + 1 → Q ≤ maxQuality →
      ((minQuality = 5 ∧ best = none) ∨
        (6 ≤ minQuality ∧ best = some (encode (minQuality - 1)))) →
      maxQuality + 2 ≤ 2 ^ fuel + minQuality →
      (searchLoop encode targetSize fuel minQuality maxQuality best).1 =
        some (encode Q) := by
  intro fuel
  induction fuel with
  | zero =>
    intro minQ maxQ best h5 h100 hmin hmax hbest hfuel
    have hone : (2 : Nat) ^ 0 = 1 := by norm_num
    rcases hbest with ⟨hm5, hb⟩ | ⟨hm6, hb⟩
    · omega
    · have hq : minQ - 1 = Q := by omega
      rw [searchLoop, hb, hq]
  | succ fuel ih =>
    intro minQ maxQ best h5 h100 hmin hmax hbest hfuel
    have hpow : (2 : Nat) ^ (fuel + 1) = 2 * 2 ^ fuel := by ring
    rw [searchLoop]
    by_cases hmid : (minQ + maxQ) / 2 < minQ
    · rcases hbest with ⟨hm5, hb⟩ | ⟨hm6, hb⟩
      · omega
      · have hq : minQ - 1 = Q := by omega
        simp only [if_pos hmid]
        rw [hb, hq]
    · have hmidlo : minQ ≤ (minQ + maxQ) / 2 := le_of_not_lt hmid
      have hmidhi : (minQ + maxQ) / 2 ≤ maxQ := by omega
      by_cases hlen : (encode ((minQ + maxQ) / 2)).length ≤ targetSize
      · have hmQ : (minQ + maxQ) / 2 ≤ Q :=
          (hfit ((minQ + maxQ) / 2) (by omega) (by omega)).mp hlen
        simp only [if_neg hmid, if_pos hlen]
        exact ih ((minQ + maxQ) / 2 + 1) maxQ (some (encode ((minQ + maxQ) / 2)))
          (by omega) h100 (by omega) hmax
          (Or.inr ⟨by omega, by simp⟩) (by omega)
      · have hmQ : Q < (minQ + maxQ) / 2 := by
          by_contra hc
          push_neg at hc
          exact hlen ((hfit ((minQ + maxQ) / 2) (by omega) (by omega)).mpr hc)
        simp only [if_neg hmid, if_neg hlen]
        exact ih minQ ((minQ + maxQ) / 2 - 1) best
          h5 (by omega) hmin (by omega) hbest (by omega)

/-- when no quality in the search range meets the target, the loop's
`bestBuffer` stays null -/
theorem searchLoop_none_of_unfit (encode : Nat → Buffer) (targetSize : Nat)
    (hunfit : ∀ q, 5 ≤ q → q ≤ 100 → targetSize < (encode q).length) :
    ∀ fuel minQuality maxQuality, 5 ≤ minQuality → maxQuality ≤ 100 →
      (searchLoop encode targetSize fuel minQuality maxQuality none).1 = none := by
  intro fuel
  induction fuel with
  | zero => intro minQ maxQ h5 h100; rw [searchLoop]
  | succ fuel ih =>
    intro minQ maxQ h5 h100
    rw [searchLoop]
    by_cases hmid : (minQ + maxQ) / 2 < minQ
    · simp [hmid]
    · have hlen : ¬ (encode ((minQ + maxQ) / 2)).length ≤ targetSize :=
        not_le.mpr (hunfit ((minQ + maxQ) / 2) (by omega) (by omega))
      simp only [if_neg hmid, if_neg hlen]
      exact ih minQ ((minQ + maxQ) / 2 - 1) h5 (by omega)

/-- C2 counterexample: for the strictly decreasing encoder
`decreasingEncoder` (size `200 - q` at quality `q`) and target budget
100, quality 100 fits the budget (size 100 ≤ 100), yet
`compressToTargetSize` returns the quality-5 encode (195 bytes, over
budget) rather than the encode at the highest fitting quality: with a
strictly decreasing size the fitting set is upward-closed, while the
search narrows toward LOWER qualities on a miss, so it never probes the
fitting region. -/
theorem sizeSearch_decreasing_encoder_counterexample :
    strictlyDecreasingOn5To100 decreasingEncoder = true ∧
      (decreasingEncoder 100).length ≤ 100 ∧
      compressToTargetSize decreasingEncoder 100 = decreasingEncoder 5 ∧
      compressToTargetSize decreasingEncoder 100 ≠ decreasingEncoder 100 ∧
      100 < (compressToTargetSize decreasingEncoder 100).length := by
  decide

/-- C2 (amended): for every target byte budget and every encoder whose
output size is a strictly INCREASING function of the integer quality
parameter on `[5, 100]`, the bounded binary search of
`compressToTargetSize` performs at most 8 encode iterations and returns
the encode at the highest quality in `[5, 100]` whose encoded size is
≤ the target (here `Q`), narrowing the lower bound up on a fit and the
upper bound down on a miss until the bounds cross. -/
theorem compressToTargetSize_returns_highest_fitting_quality
    (encode : Nat → Buffer) (targetSize Q : Nat)
    (hmono : ∀ q₁ q₂, 5 ≤ q₁ → q₁ < q₂ → q₂ ≤ 100 →
      (encode q₁).length < (encode q₂).length)
    (hQ5 : 5 ≤ Q) (hQ100 : Q ≤ 100)
    (hQfit : (encode Q).length ≤ targetSize)
    (hQtop : ∀ q, Q < q → q ≤ 100 → targetSize < (encode q).length) :
    compressToTargetSize encode targetSize = encode Q ∧
      searchProbes encode targetSize ≤ 8 := by
  have hfit : ∀ q, 5 ≤ q → q ≤ 100 →
      ((encode q).length ≤ targetSize ↔ q ≤ Q) := by
    intro q hq5 hq100
    constructor
    · intro hle
      by_contra hgt
      push_neg at hgt
      exact absurd hle (not_le.mpr (hQtop q hgt hq100))
    · intro hq
      rcases eq_or_lt_of_le hq with rfl | hlt
      · exact hQfit
      · exact le_of_lt (lt_of_lt_of_le (hmono q Q hq5 hlt hQ100) hQfit)
  refine ⟨?_, searchLoop_probes_le encode targetSize 8 5 100 none⟩
  unfold compressToTargetSize
  rw [searchLoop_finds_highest encode targetSize Q hfit hQ5 hQ100 8 5 100 none
    (by norm_num) (by norm_num) (by omega) hQ100 (Or.inl ⟨rfl, rfl⟩) (by norm_num)]

/-- C2 witness: the strictly increasing encoder emitting `q` bytes at
quality `q`, with budget 57, yields the quality-57 encode in at most 8
probes. -/
theorem compressToTargetSize_returns_highest_fitting_quality_witness :
    compressToTargetSize (fun q => List.replicate q 7) 57 =
        List.replicate 57 7 ∧
      searchProbes (fun q => List.replicate q 7) 57 ≤ 8 :=
  compressToTargetSize_returns_highest_fitting_quality
    (fun q => List.replicate q 7) 57 57
    (by intro q₁ q₂ h1 h2 h3; simpa using h2)
    (by norm_num) (by norm_num) (by simp)
    (by intro q hq _; simpa using hq)

/-- C3: if no quality in `[5, 100]` (in particular not the minimum
quality 5) produces an encoding whose size meets the budget, the search
still returns a result rather than failing: `bestBuffer` stays null, and
the fallback branch returns one more encode at the minimum quality 5. -/
theorem compressToTargetSize_best_effort_when_nothing_fits
    (encode : Nat → Buffer) (targetSize : Nat)
    (hunfit : ∀ q, 5 ≤ q → q ≤ 100 → targetSize < (encode q).length) :
    compressToTargetSize encode targetSize = encode 5 := by
  unfold compressToTargetSize
  rw [searchLoop_none_of_unfit encode targetSize hunfit 8 5 100
    (by norm_num) (by norm_num)]

/-- C3 witness: an encoder emitting 200 bytes at every quality, with
budget 100, returns the quality-5 encode. -/
theorem compressToTargetSize_best_effort_when_nothing_fits_witness :
    compressToTargetSize (fun _ => List.replicate 200 7) 100 =
      List.replicate 200 7 :=
  compressToTargetSize_best_effort_when_nothing_fits
    (fun _ => List.replicate 200 7) 100
    (by intro q _ _; simp)

/-- C9: in the single-codec WebP, size-targeted, and dual-codec variants
(the four handlers carrying the guard; `api/index.js` is the placeholder
variant), every request whose URL string contains the substring
`favicon` receives the empty 204 response before any other processing —
regardless of every other input, in particular also when the `url` query
parameter is absent, so such a request never reaches the 400
missing-parameter error. -/
theorem favicon_guard_returns_204 :
    (∀ reqUrl queryUrl urlParses fetched metadata webpEncode,
      includes reqUrl "favicon" = true →
      CompressWebp.handler reqUrl queryUrl urlParses fetched metadata
        webpEncode = Outcome.noContent) ∧
    (∀ reqUrl queryUrl mode urlParses fetched metadata webpEncodeAt,
      includes reqUrl "favicon" = true →
      TargetSize.handler reqUrl queryUrl mode urlParses fetched metadata
        webpEncodeAt = Outcome.noContent) ∧
    (∀ reqUrl queryUrl urlParses fetched metadata avifEncode webpEncode,
      includes reqUrl "favicon" = true →
      DualRace.handler reqUrl queryUrl urlParses fetched metadata
        avifEncode webpEncode = Outcome.noContent) ∧
    (∀ reqUrl queryUrl urlParses fetched metadata webpEncode,
      includes reqUrl "favicon" = true →
      Part000Webp.handler reqUrl queryUrl urlParses fetched metadata
        webpEncode = Outcome.noContent) := by
  refine ⟨?_, ?_, ?_, ?_⟩
  · intro reqUrl queryUrl urlParses fetched metadata webpEncode h
    unfold CompressWebp.handler
    simp [h]
  · intro reqUrl queryUrl mode urlParses fetched metadata webpEncodeAt h
    unfold TargetSize.handler
    simp [h]
  · intro reqUrl queryUrl urlParses fetched metadata avifEncode webpEncode h
    unfold DualRace.handler
    simp [h]
  · intro reqUrl queryUrl urlParses fetched metadata webpEncode h
    unfold Part000Webp.handler
    simp [h]

/-- C9 witness: a request for `/favicon.ico` with NO `url` query
parameter gets 204 (not the 400 missing-parameter error) in all four
guarded variants. -/
theorem favicon_guard_returns_204_witness :
    CompressWebp.handler "/favicon.ico" none true none none
        (fun _ => none) = Outcome.noContent ∧
      TargetSize.handler "/favicon.ico" none none true none none
        (fun _ _ => none) = Outcome.noContent ∧
      DualRace.handler "/favicon.ico" none true none none
        (fun _ => none) (fun _ => none) = Outcome.noContent ∧
      Part000Webp.handler "/favicon.ico" none true none none
        (fun _ => none) = Outcome.noContent :=
  ⟨favicon_guard_returns_204.1 "/favicon.ico" none true none none _
      (by decide),
    favicon_guard_returns_204.2.1 "/favicon.ico" none none true none none _
      (by decide),
    favicon_guard_returns_204.2.2.1 "/favicon.ico" none true none none _ _
      (by decide),
    favicon_guard_returns_204.2.2.2 "/favicon.ico" none true none none _
      (by decide)⟩

/-- C6: in the dual-codec race, the candidate with the strictly smaller
byte length wins together with its content-type (`image/avif` for the
AVIF candidate, `image/webp` for the WebP candidate); and on the
handler's success path both encodes of the same downloaded body are
performed and the winner, when smaller than the original, is served with
the winner's content-type and sizes. -/
theorem raceWinner_selects_smaller :
    (∀ avifBuffer webpBuffer : Buffer,
      (avifBuffer.length < webpBuffer.length →
        raceWinner avifBuffer webpBuffer = (avifBuffer, "image/avif")) ∧
      (webpBuffer.length < avifBuffer.length →
        raceWinner avifBuffer webpBuffer = (webpBuffer, "image/webp"))) ∧
    (∀ reqUrl imageUrl (response : FetchResponse) ct (md : SharpMetadata)
        avifEncode webpEncode avifBuffer webpBuffer,
      includes reqUrl "favicon" = false →
      response.ok = true →
      response.contentType = some ct →
      startsWithJs ct "image/" = true →
      response.body.length ≠ 0 →
      response.body.length ≤ MAX_INPUT_SIZE_BYTES →
      pagesGtOne md.pages = false →
      avifEncode response.body = some avifBuffer →
      webpEncode response.body = some webpBuffer →
      (raceWinner avifBuffer webpBuffer).1.length < response.body.length →
      DualRace.handler reqUrl (some imageUrl) true (some response) (some md)
          avifEncode webpEncode =
        Outcome.compressed (raceWinner avifBuffer webpBuffer).1
          (raceWinner avifBuffer webpBuffer).2
          response.body.length
          (raceWinner avifBuffer webpBuffer).1.length) := by
  constructor
  · intro avifBuffer webpBuffer
    constructor
    · intro h
      unfold raceWinner
      simp [h]
    · intro h
      unfold raceWinner
      simp [Nat.lt_asymm h]
  · intro reqUrl imageUrl response ct md avifEncode webpEncode
      avifBuffer webpBuffer hfav hok hct hsw hne hmax hp ha hw hwin
    have hnotlt : ¬ MAX_INPUT_SIZE_BYTES < response.body.length :=
      not_lt.mpr hmax
    unfold DualRace.handler
    simp [hfav, hok, hct, hsw, hne, hnotlt, hp, ha, hw, hwin,
      sendCompressed]

/-- C6 witness: encoder outputs of lengths 100 and 120 — the 100-length
output wins with its content-type; and a concrete dual-race handler run
(AVIF candidate `[1]`, WebP candidate `[2, 2]`, original 3 bytes) serves
the AVIF winner. -/
theorem raceWinner_selects_smaller_witness :
    raceWinner (List.replicate 100 0) (List.replicate 120 0) =
        (List.replicate 100 0, "image/avif") ∧
      DualRace.handler "/img" (some "u") true
          (some ⟨true, some "image/png", [9, 9, 9]⟩)
          (some ⟨some 1, none, none, none⟩)
          (fun _ => some [1]) (fun _ => some [2, 2]) =
        Outcome.compressed [1] "image/avif" 3 1 :=
  ⟨(raceWinner_selects_smaller.1 (List.replicate 100 0)
      (List.replicate 120 0)).1 (by simp),
    raceWinner_selects_smaller.2 "/img" "u"
      ⟨true, some "image/png", [9, 9, 9]⟩ "image/png"
      ⟨some 1, none, none, none⟩ (fun _ => some [1]) (fun _ => some [2, 2])
      [1] [2, 2] (by decide) rfl rfl (by decide) (by decide)
      (by norm_num [MAX_INPUT_SIZE_BYTES]) (by decide) rfl rfl (by decide)⟩

/-- C7: in every handler variant, a fetched image whose decoded metadata
reports more than one frame (`pages > 1`) bypasses transcoding: the
served bytes are exactly the fetched bytes and the served content-type
is the response's declared content-type. -/
theorem animation_guard_passthrough :
    (∀ reqUrl imageUrl (response : FetchResponse) ct
        (pages : Nat) format width height webpEncode,
      includes reqUrl "favicon" = false →
      response.ok = true →
      response.contentType = some ct →
      startsWithJs ct "image/" = true →
      response.body.length ≠ 0 →
      response.body.length ≤ MAX_INPUT_SIZE_BYTES →
      1 < pages →
      CompressWebp.handler reqUrl (some imageUrl) true (some response)
          (some ⟨some pages, format, width, height⟩) webpEncode =
        Outcome.passthrough response.body ct
          response.body.length response.body.length) ∧
    (∀ reqUrl imageUrl mode (response : FetchResponse) ct
        (pages : Nat) format width height webpEncodeAt,
      includes reqUrl "favicon" = false →
      response.ok = true →
      response.contentType = some ct →
      startsWithJs ct "image/" = true →
      response.body.length ≠ 0 →
      response.body.length ≤ MAX_INPUT_SIZE_BYTES →
      1 < pages →
      TargetSize.handler reqUrl (some imageUrl) mode true (some response)
          (some ⟨some pages, format, width, height⟩) webpEncodeAt =
        Outcome.passthrough response.body ct
          response.body.length response.body.length) ∧
    (∀ imageUrl debug (headResponse : IndexAvif.HeadResponse)
        (response : FetchResponse) ct (pages : Nat) format width height
        avifEncode,
      declaredTooLarge headResponse.contentLength = false →
      response.ok = true →
      response.contentType = some ct →
      1 < pages →
      IndexAvif.handler (some imageUrl) debug (some headResponse)
          (some response) (some ⟨some pages, format, width, height⟩)
          avifEncode =
        Outcome.passthrough response.body ct
          response.body.length response.body.length) ∧
    (∀ reqUrl imageUrl (response : FetchResponse) ct
        (pages : Nat) format width height avifEncode webpEncode,
      includes reqUrl "favicon" = false →
      response.ok = true →
      response.contentType = some ct →
      startsWithJs ct "image/" = true →
      response.body.length ≠ 0 →
      response.body.length ≤ MAX_INPUT_SIZE_BYTES →
      1 < pages →
      DualRace.handler reqUrl (some imageUrl) true (some response)
          (some ⟨some pages, format, width, height⟩)
          avifEncode webpEncode =
        Outcome.passthrough response.body ct
          response.body.length response.body.length) ∧
    (∀ reqUrl imageUrl (response : FetchResponse) ct
        (pages : Nat) format width height webpEncode,
      includes reqUrl "favicon" = false →
      response.ok = true →
      response.contentType = some ct →
      startsWithJs ct "image/" = true →
      response.body.length ≠ 0 →
      1 < pages →
      Part000Webp.handler reqUrl (some imageUrl) true (some response)
          (some ⟨some pages, format, width, height⟩) webpEncode =
        Outcome.passthrough response.body ct
          response.body.length response.body.length) := by
  refine ⟨?_, ?_, ?_, ?_, ?_⟩
  · intro reqUrl imageUrl response ct pages format width height
      webpEncode hfav hok hct hsw hne hmax hp
    have hnotlt : ¬ MAX_INPUT_SIZE_BYTES < response.body.length :=
      not_lt.mpr hmax
    unfold CompressWebp.handler
    simp [hfav, hok, hct, hsw, hne, hnotlt, pagesGtOne, hp, sendOriginal]
  · intro reqUrl imageUrl mode response ct pages format width height
      webpEncodeAt hfav hok hct hsw hne hmax hp
    have hnotlt : ¬ MAX_INPUT_SIZE_BYTES < response.body.length :=
      not_lt.mpr hmax
    unfold TargetSize.handler
    simp [hfav, hok, hct, hsw, hne, hnotlt, pagesGtOne, hp, sendOriginal]
  · intro imageUrl debug headResponse response ct pages format width height
      avifEncode hhead hok hct hp
    unfold IndexAvif.handler
    simp [hhead, hok, hct, pagesGtOne, hp, sendOriginal]
  · intro reqUrl imageUrl response ct pages format width height
      avifEncode webpEncode hfav hok hct hsw hne hmax hp
    have hnotlt : ¬ MAX_INPUT_SIZE_BYTES < response.body.length :=
      not_lt.mpr hmax
    unfold DualRace.handler
    simp [hfav, hok, hct, hsw, hne, hnotlt, pagesGtOne, hp, sendOriginal]
  · intro reqUrl imageUrl response ct pages format width height
      webpEncode hfav hok hct hsw hne hp
    unfold Part000Webp.handler
    simp [hfav, hok, hct, hsw, hne, pagesGtOne, hp, sendOriginal]

/-- C7 witness: a 2-page (animated) 3-byte image is passed through
byte-identically with its declared content-type in all five variants. -/
theorem animation_guard_passthrough_witness :
    CompressWebp.handler "/img" (some "u") true
        (some ⟨true, some "image/gif", [1, 2, 3]⟩)
        (some ⟨some 2, none, none, none⟩) (fun _ => some []) =
      Outcome.passthrough [1, 2, 3] "image/gif" 3 3 ∧
    TargetSize.handler "/img" (some "u") none true
        (some ⟨true, some "image/gif", [1, 2, 3]⟩)
        (some ⟨some 2, none, none, none⟩) (fun _ _ => none) =
      Outcome.passthrough [1, 2, 3] "image/gif" 3 3 ∧
    IndexAvif.handler (some "u") none (some ⟨none⟩)
        (some ⟨true, some "image/gif", [1, 2, 3]⟩)
        (some ⟨some 2, none, none, none⟩) (fun _ => some []) =
      Outcome.passthrough [1, 2, 3] "image/gif" 3 3 ∧
    DualRace.handler "/img" (some "u") true
        (some ⟨true, some "image/gif", [1, 2, 3]⟩)
        (some ⟨some 2, none, none, none⟩) (fun _ => some [])
        (fun _ => some []) =
      Outcome.passthrough [1, 2, 3] "image/gif" 3 3 ∧
    Part000Webp.handler "/img" (some "u") true
        (some ⟨true, some "image/gif", [1, 2, 3]⟩)
        (some ⟨some 2, none, none, none⟩) (fun _ => some []) =
      Outcome.passthrough [1, 2, 3] "image/gif" 3 3 :=
  ⟨animation_guard_passthrough.1 "/img" "u"
      ⟨true, some "image/gif", [1, 2, 3]⟩ "image/gif" 2 none none none _
      (by decide) rfl rfl (by decide) (by decide)
      (by norm_num [MAX_INPUT_SIZE_BYTES]) (by decide),
    animation_guard_passthrough.2.1 "/img" "u" none
      ⟨true, some "image/gif", [1, 2, 3]⟩ "image/gif" 2 none none none _
      (by decide) rfl rfl (by decide) (by decide)
      (by norm_num [MAX_INPUT_SIZE_BYTES]) (by decide),
    animation_guard_passthrough.2.2.1 "u" none ⟨none⟩
      ⟨true, some "image/gif", [1, 2, 3]⟩ "image/gif" 2 none none none _
      (by decide) rfl rfl (by decide),
    animation_guard_passthrough.2.2.2.1 "/img" "u"
      ⟨true, some "image/gif", [1, 2, 3]⟩ "image/gif" 2 none none none _ _
      (by decide) rfl rfl (by decide) (by decide)
      (by norm_num [MAX_INPUT_SIZE_BYTES]) (by decide),
    animation_guard_passthrough.2.2.2.2 "/img" "u"
      ⟨true, some "image/gif", [1, 2, 3]⟩ "image/gif" 2 none none none _
      (by decide) rfl rfl (by decide) (by decide) (by decide)⟩

/-- C10: in every handler variant, every Passthrough response carries
both diagnostic headers `X-Original-Size` and `X-Compressed-Size`, equal
to each other and to the byte length of the served buffer — whichever
path produced it (animation guard or original-smaller). -/
theorem passthrough_headers_equal :
    (∀ reqUrl queryUrl urlParses fetched metadata webpEncode b ct xo xc,
      CompressWebp.handler reqUrl queryUrl urlParses fetched metadata
          webpEncode = Outcome.passthrough b ct xo xc →
        xo = b.length ∧ xc = b.length) ∧
    (∀ reqUrl queryUrl mode urlParses fetched metadata webpEncodeAt b ct xo xc,
      TargetSize.handler reqUrl queryUrl mode urlParses fetched metadata
          webpEncodeAt = Outcome.passthrough b ct xo xc →
        xo = b.length ∧ xc = b.length) ∧
    (∀ queryUrl debug headResult fetched metadata avifEncode b ct xo xc,
      IndexAvif.handler queryUrl debug headResult fetched metadata
          avifEncode = Outcome.passthrough b ct xo xc →
        xo = b.length ∧ xc = b.length) ∧
    (∀ reqUrl queryUrl urlParses fetched metadata avifEncode webpEncode
        b ct xo xc,
      DualRace.handler reqUrl queryUrl urlParses fetched metadata
          avifEncode webpEncode = Outcome.passthrough b ct xo xc →
        xo = b.length ∧ xc = b.length) ∧
    (∀ reqUrl queryUrl urlParses fetched metadata webpEncode b ct xo xc,
      Part000Webp.handler reqUrl queryUrl urlParses fetched metadata
          webpEncode = Outcome.passthrough b ct xo xc →
        xo = b.length ∧ xc = b.length) := by
  refine ⟨?_, ?_, ?_, ?_, ?_⟩
  · intro reqUrl queryUrl urlParses fetched metadata webpEncode b ct xo xc h
    unfold CompressWebp.handler sendOriginal sendCompressed at h
    repeat' split at h
    all_goals first
      | (injection h with h1 h2 h3 h4; subst h1; subst h3; subst h4;
          exact ⟨rfl, rfl⟩)
      | simp_all
  · intro reqUrl queryUrl mode urlParses fetched metadata webpEncodeAt
      b ct xo xc h
    unfold TargetSize.handler sendOriginal sendCompressed at h
    repeat' split at h
    all_goals first
      | (injection h with h1 h2 h3 h4; subst h1; subst h3; subst h4;
          exact ⟨rfl, rfl⟩)
      | simp_all
  · intro queryUrl debug headResult fetched metadata avifEncode b ct xo xc h
    unfold IndexAvif.handler sendOriginal sendCompressed at h
    repeat' split at h
    all_goals first
      | (injection h with h1 h2 h3 h4; subst h1; subst h3; subst h4;
          exact ⟨rfl, rfl⟩)
      | simp_all
  · intro reqUrl queryUrl urlParses fetched metadata avifEncode webpEncode
      b ct xo xc h
    unfold DualRace.handler sendOriginal sendCompressed at h
    repeat' split at h
    all_goals first
      | (injection h with h1 h2 h3 h4; subst h1; subst h3; subst h4;
          exact ⟨rfl, rfl⟩)
      | simp_all
  · intro reqUrl queryUrl urlParses fetched metadata webpEncode b ct xo xc h
    unfold Part000Webp.handler sendOriginal sendCompressed at h
    repeat' split at h
    all_goals first
      | (injection h with h1 h2 h3 h4; subst h1; subst h3; subst h4;
          exact ⟨rfl, rfl⟩)
      | simp_all

/-- C10 witness: concrete original-smaller passthrough runs (a 3-byte
body whose encode is 4 bytes) in all five variants, instantiating the
header-equality statement at those outcomes. -/
theorem passthrough_headers_equal_witness :
    ((3 : Nat) = ([1, 2, 3] : Buffer).length ∧
        (3 : Nat) = ([1, 2, 3] : Buffer).length) ∧
      ((3 : Nat) = ([1, 2, 3] : Buffer).length ∧
        (3 : Nat) = ([1, 2, 3] : Buffer).length) ∧
      ((3 : Nat) = ([1, 2, 3] : Buffer).length ∧
        (3 : Nat) = ([1, 2, 3] : Buffer).length) :=
  ⟨passthrough_headers_equal.1 "/img" (some "u") true
      (some ⟨true, some "image/png", [1, 2, 3]⟩)
      (some ⟨some 1, none, none, none⟩) (fun _ => some [9, 9, 9, 9])
      [1, 2, 3] "image/png" 3 3 (by decide),
    passthrough_headers_equal.2.2.1 (some "u") none (some ⟨none⟩)
      (some ⟨true, some "image/png", [1, 2, 3]⟩)
      (some ⟨some 1, none, none, none⟩) (fun _ => some [9, 9, 9, 9])
      [1, 2, 3] "image/png" 3 3 (by decide),
    passthrough_headers_equal.2.2.2.2 "/img" (some "u") true
      (some ⟨true, some "image/png", [1, 2, 3]⟩)
      (some ⟨some 1, none, none, none⟩) (fun _ => some [9, 9, 9, 9])
      [1, 2, 3] "image/png" 3 3 (by decide)⟩

/-- C1 counterexample: in the `api/index.js` variant with
`debug = 'true'`, a successfully fetched, decoded single-frame image
whose encode is NOT smaller (original 3 bytes, encode 4 bytes) yields a
JSON debug report — the original bytes are NOT served as a Passthrough
outcome, contradicting the claim's "in every other case the original
bytes are served unchanged as Passthrough" for this variant. -/
theorem debug_mode_breaks_passthrough_claim :
    IndexAvif.handler (some "u") (some "true") (some ⟨none⟩)
        (some ⟨true, some "image/png", [1, 2, 3]⟩)
        (some ⟨some 1, some "png", some 3, some 1⟩)
        (fun _ => some [9, 9, 9, 9]) =
      Outcome.debugReport "Passthrough (Original better)" 3 4 (-1)
        (some "png") (some 3) (some 1) ∧
      servedBody
        (IndexAvif.handler (some "u") (some "true") (some ⟨none⟩)
          (some ⟨true, some "image/png", [1, 2, 3]⟩)
          (some ⟨some 1, some "png", some 3, some 1⟩)
          (fun _ => some [9, 9, 9, 9])) = none := by
  decide

/-- C1 (amended): in every handler variant, a Compressed outcome is
returned only if the compressed byte length is strictly smaller than the
original fetched byte length (first group), every Passthrough outcome
serves exactly the original fetched bytes (second group) — hence any
served image is no longer than the original — and on the success path
with a single-frame image the final decision is exactly "Compressed when
strictly smaller, otherwise Passthrough of the original" (third group),
EXCEPT that the `api/index.js` variant in debug mode (`debug = 'true'`)
returns a JSON report instead of either image outcome, so its equation
carries a debug-off hypothesis. -/
theorem compressed_outcome_iff_smaller :
    ((∀ reqUrl queryUrl urlParses (response : FetchResponse) metadata
        webpEncode b ct xo xc,
      CompressWebp.handler reqUrl queryUrl urlParses (some response)
          metadata webpEncode = Outcome.compressed b ct xo xc →
        xc = b.length ∧ xo = response.body.length ∧
          b.length < response.body.length) ∧
    (∀ reqUrl queryUrl mode urlParses (response : FetchResponse) metadata
        webpEncodeAt b ct xo xc,
      TargetSize.handler reqUrl queryUrl mode urlParses (some response)
          metadata webpEncodeAt = Outcome.compressed b ct xo xc →
        xc = b.length ∧ xo = response.body.length ∧
          b.length < response.body.length) ∧
    (∀ queryUrl debug headResult (response : FetchResponse) metadata
        avifEncode b ct xo xc,
      IndexAvif.handler queryUrl debug headResult (some response)
          metadata avifEncode = Outcome.compressed b ct xo xc →
        xc = b.length ∧ xo = response.body.length ∧
          b.length < response.body.length) ∧
    (∀ reqUrl queryUrl urlParses (response : FetchResponse) metadata
        avifEncode webpEncode b ct xo xc,
      DualRace.handler reqUrl queryUrl urlParses (some response)
          metadata avifEncode webpEncode = Outcome.compressed b ct xo xc →
        xc = b.length ∧ xo = response.body.length ∧
          b.length < response.body.length) ∧
    (∀ reqUrl queryUrl urlParses (response : FetchResponse) metadata
        webpEncode b ct xo xc,
      Part000Webp.handler reqUrl queryUrl urlParses (some response)
          metadata webpEncode = Outcome.compressed b ct xo xc →
        xc = b.length ∧ xo = response.body.length ∧
          b.length < response.body.length)) ∧
    ((∀ reqUrl queryUrl urlParses (response : FetchResponse) metadata
        webpEncode b ct xo xc,
      CompressWebp.handler reqUrl queryUrl urlParses (some response)
          metadata webpEncode = Outcome.passthrough b ct xo xc →
        b = response.body) ∧
    (∀ reqUrl queryUrl mode urlParses (response : FetchResponse) metadata
        webpEncodeAt b ct xo xc,
      TargetSize.handler reqUrl queryUrl mode urlParses (some response)
          metadata webpEncodeAt = Outcome.passthrough b ct xo xc →
        b = response.body) ∧
    (∀ queryUrl debug headResult (response : FetchResponse) metadata
        avifEncode b ct xo xc,
      IndexAvif.handler queryUrl debug headResult (some response)
          metadata avifEncode = Outcome.passthrough b ct xo xc →
        b = response.body) ∧
    (∀ reqUrl queryUrl urlParses (response : FetchResponse) metadata
        avifEncode webpEncode b ct xo xc,
      DualRace.handler reqUrl queryUrl urlParses (some response)
          metadata avifEncode webpEncode = Outcome.passthrough b ct xo xc →
        b = response.body) ∧
    (∀ reqUrl queryUrl urlParses (response : FetchResponse) metadata
        webpEncode b ct xo xc,
      Part000Webp.handler reqUrl queryUrl urlParses (some response)
          metadata webpEncode = Outcome.passthrough b ct xo xc →
        b = response.body)) ∧
    ((∀ reqUrl imageUrl (response : FetchResponse) ct (md : SharpMetadata)
        webpEncode compressedBuffer,
      includes reqUrl "favicon" = false →
      response.ok = true →
      response.contentType = some ct →
      startsWithJs ct "image/" = true →
      response.body.length ≠ 0 →
      response.body.length ≤ MAX_INPUT_SIZE_BYTES →
      pagesGtOne md.pages = false →
      webpEncode response.body = some compressedBuffer →
      CompressWebp.handler reqUrl (some imageUrl) true (some response)
          (some md) webpEncode =
        if compressedBuffer.length < response.body.length then
          Outcome.compressed compressedBuffer "image/webp"
            response.body.length compressedBuffer.length
        else
          Outcome.passthrough response.body ct
            response.body.length response.body.length) ∧
    (∀ reqUrl imageUrl mode (response : FetchResponse) ct
        (md : SharpMetadata) webpEncodeAt compressedBuffer,
      includes reqUrl "favicon" = false →
      response.ok = true →
      response.contentType = some ct →
      startsWithJs ct "image/" = true →
      response.body.length ≠ 0 →
      response.body.length ≤ MAX_INPUT_SIZE_BYTES →
      pagesGtOne md.pages = false →
      compressToTargetSizeE (webpEncodeAt response.body)
          (if mode = some "relaxed" then TARGET_SIZE_RELAXED
           else TARGET_SIZE_STRICT) = some compressedBuffer →
      TargetSize.handler reqUrl (some imageUrl) mode true (some response)
          (some md) webpEncodeAt =
        if compressedBuffer.length < response.body.length then
          Outcome.compressed compressedBuffer "image/webp"
            response.body.length compressedBuffer.length
        else
          Outcome.passthrough response.body ct
            response.body.length response.body.length) ∧
    (∀ imageUrl debug (headResponse : IndexAvif.HeadResponse)
        (response : FetchResponse) (md : SharpMetadata) avifEncode
        compressedBuffer,
      declaredTooLarge headResponse.contentLength = false →
      response.ok = true →
      pagesGtOne md.pages = false →
      avifEncode response.body = some compressedBuffer →
      debug ≠ some "true" →
      IndexAvif.handler (some imageUrl) debug (some headResponse)
          (some response) (some md) avifEncode =
        if compressedBuffer.length < response.body.length then
          Outcome.compressed compressedBuffer "image/avif"
            response.body.length compressedBuffer.length
        else
          Outcome.passthrough response.body
            (response.contentType.getD "image/jpeg")
            response.body.length response.body.length) ∧
    (∀ reqUrl imageUrl (response : FetchResponse) ct (md : SharpMetadata)
        avifEncode webpEncode avifBuffer webpBuffer,
      includes reqUrl "favicon" = false →
      response.ok = true →
      response.contentType = some ct →
      startsWithJs ct "image/" = true →
      response.body.length ≠ 0 →
      response.body.length ≤ MAX_INPUT_SIZE_BYTES →
      pagesGtOne md.pages = false →
      avifEncode response.body = some avifBuffer →
      webpEncode response.body = some webpBuffer →
      DualRace.handler reqUrl (some imageUrl) true (some response)
          (some md) avifEncode webpEncode =
        if (raceWinner avifBuffer webpBuffer).1.length
            < response.body.length then
          Outcome.compressed (raceWinner avifBuffer webpBuffer).1
            (raceWinner avifBuffer webpBuffer).2
            response.body.length
            (raceWinner avifBuffer webpBuffer).1.length
        else
          Outcome.passthrough response.body ct
            response.body.length response.body.length) ∧
    (∀ reqUrl imageUrl (response : FetchResponse) ct (md : SharpMetadata)
        webpEncode compressedBuffer,
      includes reqUrl "favicon" = false →
      response.ok = true →
      response.contentType = some ct →
      startsWithJs ct "image/" = true →
      response.body.length ≠ 0 →
      pagesGtOne md.pages = false →
      webpEncode response.body = some compressedBuffer →
      Part000Webp.handler reqUrl (some imageUrl) true (some response)
          (some md) webpEncode =
        if compressedBuffer.length < response.body.length then
          Outcome.compressed compressedBuffer "image/webp"
            response.body.length compressedBuffer.length
        else
          Outcome.passthrough response.body ct
            response.body.length response.body.length)) := by
  refine ⟨⟨?_, ?_, ?_, ?_, ?_⟩, ⟨?_, ?_, ?_, ?_, ?_⟩, ?_, ?_, ?_, ?_, ?_⟩
  · intro reqUrl queryUrl urlParses response metadata webpEncode b ct xo xc h
    unfold CompressWebp.handler sendOriginal sendCompressed at h
    repeat' split at h
    all_goals first
      | (injection h with h1 h2 h3 h4; subst h1; subst h3; subst h4;
          simp_all)
      | simp_all
  · intro reqUrl queryUrl mode urlParses response metadata webpEncodeAt
      b ct xo xc h
    unfold TargetSize.handler sendOriginal sendCompressed at h
    repeat' split at h
    all_goals first
      | (injection h with h1 h2 h3 h4; subst h1; subst h3; subst h4;
          simp_all)
      | simp_all
  · intro queryUrl debug headResult response metadata avifEncode b ct xo xc h
    unfold IndexAvif.handler sendOriginal sendCompressed at h
    repeat' split at h
    all_goals first
      | (injection h with h1 h2 h3 h4; subst h1; subst h3; subst h4;
          simp_all)
      | simp_all
  · intro reqUrl queryUrl urlParses response metadata avifEncode webpEncode
      b ct xo xc h
    unfold DualRace.handler sendOriginal sendCompressed at h
    repeat' split at h
    all_goals first
      | (injection h with h1 h2 h3 h4; subst h1; subst h3; subst h4;
          simp_all)
      | simp_all
  · intro reqUrl queryUrl urlParses response metadata webpEncode b ct xo xc h
    unfold Part000Webp.handler sendOriginal sendCompressed at h
    repeat' split at h
    all_goals first
      | (injection h with h1 h2 h3 h4; subst h1; subst h3; subst h4;
          simp_all)
      | simp_all
  · intro reqUrl queryUrl urlParses response metadata webpEncode b ct xo xc h
    unfold CompressWebp.handler sendOriginal sendCompressed at h
    repeat' split at h
    all_goals first
      | (injection h with h1 h2 h3 h4; subst h1; simp_all)
      | simp_all
  · intro reqUrl queryUrl mode urlParses response metadata webpEncodeAt
      b ct xo xc h
    unfold TargetSize.handler sendOriginal sendCompressed at h
    repeat' split at h
    all_goals first
      | (injection h with h1 h2 h3 h4; subst h1; simp_all)
      | simp_all
  · intro queryUrl debug headResult response metadata avifEncode b ct xo xc h
    unfold IndexAvif.handler sendOriginal sendCompressed at h
    repeat' split at h
    all_goals first
      | (injection h with h1 h2 h3 h4; subst h1; simp_all)
      | simp_all
  · intro reqUrl queryUrl urlParses response metadata avifEncode webpEncode
      b ct xo xc h
    unfold DualRace.handler sendOriginal sendCompressed at h
    repeat' split at h
    all_goals first
      | (injection h with h1 h2 h3 h4; subst h1; simp_all)
      | simp_all
  · intro reqUrl queryUrl urlParses response metadata webpEncode b ct xo xc h
    unfold Part000Webp.handler sendOriginal sendCompressed at h
    repeat' split at h
    all_goals first
      | (injection h with h1 h2 h3 h4; subst h1; simp_all)
      | simp_all
  · intro reqUrl imageUrl response ct md webpEncode compressedBuffer
      hfav hok hct hsw hne hmax hp henc
    have hnotlt : ¬ MAX_INPUT_SIZE_BYTES < response.body.length :=
      not_lt.mpr hmax
    unfold CompressWebp.handler
    simp [hfav, hok, hct, hsw, hne, hnotlt, hp, henc,
      sendCompressed, sendOriginal]
  · intro reqUrl imageUrl mode response ct md webpEncodeAt compressedBuffer
      hfav hok hct hsw hne hmax hp hcb
    have hnotlt : ¬ MAX_INPUT_SIZE_BYTES < response.body.length :=
      not_lt.mpr hmax
    unfold TargetSize.handler
    simp [hfav, hok, hct, hsw, hne, hnotlt, hp, hcb,
      sendCompressed, sendOriginal]
  · intro imageUrl debug headResponse response md avifEncode
      compressedBuffer hhead hok hp henc hdbg
    unfold IndexAvif.handler
    simp [hhead, hok, hp, henc, hdbg, sendCompressed, sendOriginal]
  · intro reqUrl imageUrl response ct md avifEncode webpEncode
      avifBuffer webpBuffer hfav hok hct hsw hne hmax hp ha hw
    have hnotlt : ¬ MAX_INPUT_SIZE_BYTES < response.body.length :=
      not_lt.mpr hmax
    unfold DualRace.handler
    simp [hfav, hok, hct, hsw, hne, hnotlt, hp, ha, hw,
      sendCompressed, sendOriginal]
  · intro reqUrl imageUrl response ct md webpEncode compressedBuffer
      hfav hok hct hsw hne hp henc
    unfold Part000Webp.handler
    simp [hfav, hok, hct, hsw, hne, hp, henc, sendCompressed, sendOriginal]

/-- C1 witness: concrete instantiations — a compressed run and a
passthrough run of the `api/compress.js` WebP handler, and the success
path decision equation of each of the five variants at a 3-byte body
(encode `[9]`, 1 byte, for the compressed side). -/
theorem compressed_outcome_iff_smaller_witness :
    ((1 : Nat) = ([9] : Buffer).length ∧
      (3 : Nat) = ([1, 2, 3] : Buffer).length ∧
      ([9] : Buffer).length < ([1, 2, 3] : Buffer).length) ∧
    ([1, 2, 3] : Buffer) = [1, 2, 3] ∧
    (CompressWebp.handler "/img" (some "u") true
        (some ⟨true, some "image/png", [1, 2, 3]⟩)
        (some ⟨some 1, none, none, none⟩) (fun _ => some [9]) =
      if ([9] : Buffer).length < ([1, 2, 3] : Buffer).length then
        Outcome.compressed [9] "image/webp" 3 1
      else Outcome.passthrough [1, 2, 3] "image/png" 3 3) ∧
    (TargetSize.handler "/img" (some "u") none true
        (some ⟨true, some "image/png", [1, 2, 3]⟩)
        (some ⟨some 1, none, none, none⟩) (fun _ _ => some [9]) =
      if ([9] : Buffer).length < ([1, 2, 3] : Buffer).length then
        Outcome.compressed [9] "image/webp" 3 1
      else Outcome.passthrough [1, 2, 3] "image/png" 3 3) ∧
    (IndexAvif.handler (some "u") none (some ⟨none⟩)
        (some ⟨true, some "image/png", [1, 2, 3]⟩)
        (some ⟨some 1, none, none, none⟩) (fun _ => some [9]) =
      if ([9] : Buffer).length < ([1, 2, 3] : Buffer).length then
        Outcome.compressed [9] "image/avif" 3 1
      else Outcome.passthrough [1, 2, 3] "image/png" 3 3) ∧
    (DualRace.handler "/img" (some "u") true
        (some ⟨true, some "image/png", [1, 2, 3]⟩)
        (some ⟨some 1, none, none, none⟩)
        (fun _ => some [9]) (fun _ => some [8, 8]) =
      if (raceWinner [9] [8, 8]).1.length < ([1, 2, 3] : Buffer).length then
        Outcome.compressed (raceWinner [9] [8, 8]).1
          (raceWinner [9] [8, 8]).2 3 (raceWinner [9] [8, 8]).1.length
      else Outcome.passthrough [1, 2, 3] "image/png" 3 3) ∧
    (Part000Webp.handler "/img" (some "u") true
        (some ⟨true, some "image/png", [1, 2, 3]⟩)
        (some ⟨some 1, none, none, none⟩) (fun _ => some [9]) =
      if ([9] : Buffer).length < ([1, 2, 3] : Buffer).length then
        Outcome.compressed [9] "image/webp" 3 1
      else Outcome.passthrough [1, 2, 3] "image/png" 3 3) :=
  ⟨compressed_outcome_iff_smaller.1.1 "/img" (some "u") true
      ⟨true, some "image/png", [1, 2, 3]⟩
      (some ⟨some 1, none, none, none⟩) (fun _ => some [9])
      [9] "image/webp" 3 1 (by decide),
    compressed_outcome_iff_smaller.2.1.1 "/img" (some "u") true
      ⟨true, some "image/png", [1, 2, 3]⟩
      (some ⟨some 1, none, none, none⟩) (fun _ => some [9, 9, 9, 9])
      [1, 2, 3] "image/png" 3 3 (by decide),
    compressed_outcome_iff_smaller.2.2.1 "/img" "u"
      ⟨true, some "image/png", [1, 2, 3]⟩ "image/png"
      ⟨some 1, none, none, none⟩ (fun _ => some [9]) [9]
      (by decide) rfl rfl (by decide) (by decide)
      (by norm_num [MAX_INPUT_SIZE_BYTES]) (by decide) rfl,
    compressed_outcome_iff_smaller.2.2.2.1 "/img" "u" none
      ⟨true, some "image/png", [1, 2, 3]⟩ "image/png"
      ⟨some 1, none, none, none⟩ (fun _ _ => some [9]) [9]
      (by decide) rfl rfl (by decide) (by decide)
      (by norm_num [MAX_INPUT_SIZE_BYTES]) (by decide) (by decide),
    compressed_outcome_iff_smaller.2.2.2.2.1 "u" none ⟨none⟩
      ⟨true, some "image/png", [1, 2, 3]⟩
      ⟨some 1, none, none, none⟩ (fun _ => some [9]) [9]
      (by decide) rfl (by decide) rfl (by decide),
    compressed_outcome_iff_smaller.2.2.2.2.2.1 "/img" "u"
      ⟨true, some "image/png", [1, 2, 3]⟩ "image/png"
      ⟨some 1, none, none, none⟩ (fun _ => some [9]) (fun _ => some [8, 8])
      [9] [8, 8] (by decide) rfl rfl (by decide) (by decide)
      (by norm_num [MAX_INPUT_SIZE_BYTES]) (by decide) rfl rfl,
    compressed_outcome_iff_smaller.2.2.2.2.2.2 "/img" "u"
      ⟨true, some "image/png", [1, 2, 3]⟩ "image/png"
      ⟨some 1, none, none, none⟩ (fun _ => some [9]) [9]
      (by decide) rfl rfl (by decide) (by decide) (by decide) rfl⟩

set_option maxHeartbeats 4000000 in
/-- C8: in the four redirect-fallback variants, every modelled pipeline
failure — an unparseable `url` string (which throws in `new URL` before
any fetch), a fetch that throws (network error / timeout abort), a
non-ok upstream status, an absent or non-image content-type, an empty
body, an oversized body (where that check exists), an undecodable image,
or a throwing encode — produces the 302 response whose `Location` header
is the exact, unvalidated user-supplied `url` query string. -/
theorem failure_redirects_to_raw_url :
    (∀ reqUrl imageUrl urlParses fetched metadata webpEncode,
      includes reqUrl "favicon" = false →
      (urlParses = false ∨
        fetched = none ∨
        (∃ r : FetchResponse, fetched = some r ∧ r.ok = false) ∨
        (∃ r : FetchResponse, fetched = some r ∧ r.contentType = none) ∨
        (∃ (r : FetchResponse) (s : String), fetched = some r ∧
          r.contentType = some s ∧ startsWithJs s "image/" = false) ∨
        (∃ r : FetchResponse, fetched = some r ∧ r.body.length = 0) ∨
        (∃ r : FetchResponse, fetched = some r ∧
          MAX_INPUT_SIZE_BYTES < r.body.length) ∨
        metadata = none ∨
        (∃ (r : FetchResponse) (md : SharpMetadata), fetched = some r ∧
          metadata = some md ∧ pagesGtOne md.pages = false ∧
          webpEncode r.body = none)) →
      CompressWebp.handler reqUrl (some imageUrl) urlParses fetched
        metadata webpEncode = Outcome.redirect imageUrl) ∧
    (∀ reqUrl imageUrl mode urlParses fetched metadata webpEncodeAt,
      includes reqUrl "favicon" = false →
      (urlParses = false ∨
        fetched = none ∨
        (∃ r : FetchResponse, fetched = some r ∧ r.ok = false) ∨
        (∃ r : FetchResponse, fetched = some r ∧ r.contentType = none) ∨
        (∃ (r : FetchResponse) (s : String), fetched = some r ∧
          r.contentType = some s ∧ startsWithJs s "image/" = false) ∨
        (∃ r : FetchResponse, fetched = some r ∧ r.body.length = 0) ∨
        (∃ r : FetchResponse, fetched = some r ∧
          MAX_INPUT_SIZE_BYTES < r.body.length) ∨
        metadata = none ∨
        (∃ (r : FetchResponse) (md : SharpMetadata), fetched = some r ∧
          metadata = some md ∧ pagesGtOne md.pages = false ∧
          compressToTargetSizeE (webpEncodeAt r.body)
            (if mode = some "relaxed" then TARGET_SIZE_RELAXED
             else TARGET_SIZE_STRICT) = none)) →
      TargetSize.handler reqUrl (some imageUrl) mode urlParses fetched
        metadata webpEncodeAt = Outcome.redirect imageUrl) ∧
    (∀ reqUrl imageUrl urlParses fetched metadata avifEncode webpEncode,
      includes reqUrl "favicon" = false →
      (urlParses = false ∨
        fetched = none ∨
        (∃ r : FetchResponse, fetched = some r ∧ r.ok = false) ∨
        (∃ r : FetchResponse, fetched = some r ∧ r.contentType = none) ∨
        (∃ (r : FetchResponse) (s : String), fetched = some r ∧
          r.contentType = some s ∧ startsWithJs s "image/" = false) ∨
        (∃ r : FetchResponse, fetched = some r ∧ r.body.length = 0) ∨
        (∃ r : FetchResponse, fetched = some r ∧
          MAX_INPUT_SIZE_BYTES < r.body.length) ∨
        metadata = none ∨
        (∃ (r : FetchResponse) (md : SharpMetadata), fetched = some r ∧
          metadata = some md ∧ pagesGtOne md.pages = false ∧
          (avifEncode r.body = none ∨ webpEncode r.body = none))) →
      DualRace.handler reqUrl (some imageUrl) urlParses fetched metadata
        avifEncode webpEncode = Outcome.redirect imageUrl) ∧
    (∀ reqUrl imageUrl urlParses fetched metadata webpEncode,
      includes reqUrl "favicon" = false →
      (urlParses = false ∨
        fetched = none ∨
        (∃ r : FetchResponse, fetched = some r ∧ r.ok = false) ∨
        (∃ r : FetchResponse, fetched = some r ∧ r.contentType = none) ∨
        (∃ (r : FetchResponse) (s : String), fetched = some r ∧
          r.contentType = some s ∧ startsWithJs s "image/" = false) ∨
        (∃ r : FetchResponse, fetched = some r ∧ r.body.length = 0) ∨
        metadata = none ∨
        (∃ (r : FetchResponse) (md : SharpMetadata), fetched = some r ∧
          metadata = some md ∧ pagesGtOne md.pages = false ∧
          webpEncode r.body = none)) →
      Part000Webp.handler reqUrl (some imageUrl) urlParses fetched
        metadata webpEncode = Outcome.redirect imageUrl) := by
  refine ⟨?_, ?_, ?_, ?_⟩
  · intro reqUrl imageUrl urlParses fetched metadata webpEncode hfav hfail
    unfold CompressWebp.handler
    rcases hfail with h | h | ⟨r, hr, h⟩ | ⟨r, hr, h⟩ | ⟨r, s, hr, hs, h⟩ |
      ⟨r, hr, h⟩ | ⟨r, hr, h⟩ | h | ⟨r, md, hr, hmd, hp, h⟩
    all_goals repeat' split
    all_goals simp_all [sendOriginal, sendCompressed]
  · intro reqUrl imageUrl mode urlParses fetched metadata webpEncodeAt
      hfav hfail
    unfold TargetSize.handler
    rcases hfail with h | h | ⟨r, hr, h⟩ | ⟨r, hr, h⟩ | ⟨r, s, hr, hs, h⟩ |
      ⟨r, hr, h⟩ | ⟨r, hr, h⟩ | h | ⟨r, md, hr, hmd, hp, h⟩
    all_goals repeat' split
    all_goals simp_all [sendOriginal, sendCompressed]
  · intro reqUrl imageUrl urlParses fetched metadata avifEncode webpEncode
      hfav hfail
    unfold DualRace.handler
    rcases hfail with h | h | ⟨r, hr, h⟩ | ⟨r, hr, h⟩ | ⟨r, s, hr, hs, h⟩ |
      ⟨r, hr, h⟩ | ⟨r, hr, h⟩ | h | ⟨r, md, hr, hmd, hp, h⟩
    all_goals repeat' split
    all_goals simp_all [sendOriginal, sendCompressed]
  · intro reqUrl imageUrl urlParses fetched metadata webpEncode hfav hfail
    unfold Part000Webp.handler
    rcases hfail with h | h | ⟨r, hr, h⟩ | ⟨r, hr, h⟩ | ⟨r, s, hr, hs, h⟩ |
      ⟨r, hr, h⟩ | h | ⟨r, md, hr, hmd, hp, h⟩
    all_goals repeat' split
    all_goals simp_all [sendOriginal, sendCompressed]

/-- C8 witness: a `url` value that is not a parseable URL (so `new URL`
throws before any fetch) is redirected to verbatim by all four
redirect-fallback variants, and a size-targeted run whose WebP encoder
throws on every quality (so `compressToTargetSize` rejects mid-search)
is redirected as well. -/
theorem failure_redirects_to_raw_url_witness :
    CompressWebp.handler "/img" (some "::not a url::") false none none
        (fun _ => none) = Outcome.redirect "::not a url::" ∧
      TargetSize.handler "/img" (some "::not a url::") none false none
        none (fun _ _ => none) = Outcome.redirect "::not a url::" ∧
      DualRace.handler "/img" (some "::not a url::") false none none
        (fun _ => none) (fun _ => none) =
        Outcome.redirect "::not a url::" ∧
      Part000Webp.handler "/img" (some "::not a url::") false none none
        (fun _ => none) = Outcome.redirect "::not a url::" ∧
      TargetSize.handler "/img" (some "u") none true
        (some ⟨true, some "image/png", [1, 2, 3]⟩)
        (some ⟨some 1, none, none, none⟩) (fun _ _ => none) =
        Outcome.redirect "u" :=
  ⟨failure_redirects_to_raw_url.1 "/img" "::not a url::" false none none
      (fun _ => none) (by decide) (Or.inl rfl),
    failure_redirects_to_raw_url.2.1 "/img" "::not a url::" none false
      none none (fun _ _ => none) (by decide) (Or.inl rfl),
    failure_redirects_to_raw_url.2.2.1 "/img" "::not a url::" false none
      none (fun _ => none) (fun _ => none) (by decide) (Or.inl rfl),
    failure_redirects_to_raw_url.2.2.2 "/img" "::not a url::" false none
      none (fun _ => none) (by decide) (Or.inl rfl),
    failure_redirects_to_raw_url.2.1 "/img" "u" none true
      (some ⟨true, some "image/png", [1, 2, 3]⟩)
      (some ⟨some 1, none, none, none⟩) (fun _ _ => none) (by decide)
      (Or.inr (Or.inr (Or.inr (Or.inr (Or.inr (Or.inr (Or.inr (Or.inr
        ⟨⟨true, some "image/png", [1, 2, 3]⟩,
          ⟨some 1, none, none, none⟩, rfl, rfl, by decide, by decide⟩))))))))⟩

/-- C4 counterexample: the `part_000` WebP variant has NO size-limit
check: a successfully fetched body of `MAX_INPUT_SIZE_BYTES + 1` bytes
(30 MiB + 1) is not rejected as TooLarge — it is transcoded and served
(here its 1-byte encode wins), contradicting the claim for this handler
variant. -/
theorem oversized_body_not_rejected_part000 :
    MAX_INPUT_SIZE_BYTES <
        (List.replicate (MAX_INPUT_SIZE_BYTES + 1) 0 : Buffer).length ∧
      Part000Webp.handler "/img" (some "u") true
          (some ⟨true, some "image/png",
            List.replicate (MAX_INPUT_SIZE_BYTES + 1) 0⟩)
          (some ⟨some 1, none, none, none⟩) (fun _ => some [0]) =
        Outcome.compressed [0] "image/webp" (MAX_INPUT_SIZE_BYTES + 1) 1 := by
  constructor
  · simp
  · have hfav : includes "/img" "favicon" = false := by decide
    have hsw : startsWithJs "image/png" "image/" = true := by decide
    unfold Part000Webp.handler
    norm_num [hfav, hsw, pagesGtOne, sendCompressed, MAX_INPUT_SIZE_BYTES]

/-- C4 (amended): the two compress.js handlers and the dual-race handler
reject a downloaded body exceeding 30 MiB with their fallback redirect;
`api/index.js` rejects (with its placeholder fallback) when the HEAD
request's declared `content-length` exceeds 30 MiB; the `part_000` WebP
variant performs no size check at all (see the counterexample). -/
theorem size_limit_enforcement :
    (∀ reqUrl imageUrl (response : FetchResponse) ct metadata webpEncode,
      includes reqUrl "favicon" = false →
      response.ok = true →
      response.contentType = some ct →
      startsWithJs ct "image/" = true →
      MAX_INPUT_SIZE_BYTES < response.body.length →
      CompressWebp.handler reqUrl (some imageUrl) true (some response)
        metadata webpEncode = Outcome.redirect imageUrl) ∧
    (∀ reqUrl imageUrl mode (response : FetchResponse) ct metadata
        webpEncodeAt,
      includes reqUrl "favicon" = false →
      response.ok = true →
      response.contentType = some ct →
      startsWithJs ct "image/" = true →
      MAX_INPUT_SIZE_BYTES < response.body.length →
      TargetSize.handler reqUrl (some imageUrl) mode true (some response)
        metadata webpEncodeAt = Outcome.redirect imageUrl) ∧
    (∀ reqUrl imageUrl (response : FetchResponse) ct metadata avifEncode
        webpEncode,
      includes reqUrl "favicon" = false →
      response.ok = true →
      response.contentType = some ct →
      startsWithJs ct "image/" = true →
      MAX_INPUT_SIZE_BYTES < response.body.length →
      DualRace.handler reqUrl (some imageUrl) true (some response)
        metadata avifEncode webpEncode = Outcome.redirect imageUrl) ∧
    (∀ imageUrl debug (headResponse : IndexAvif.HeadResponse) fetched
        metadata avifEncode n,
      headResponse.contentLength = some n →
      MAX_INPUT_SIZE_BYTES < n →
      IndexAvif.handler (some imageUrl) debug (some headResponse) fetched
        metadata avifEncode = Outcome.placeholder) := by
  refine ⟨?_, ?_, ?_, ?_⟩
  · intro reqUrl imageUrl response ct metadata webpEncode
      hfav hok hct hsw hbig
    have hne : response.body.length ≠ 0 := by
      unfold MAX_INPUT_SIZE_BYTES at hbig
      omega
    unfold CompressWebp.handler
    simp [hfav, hok, hct, hsw, hne, hbig]
  · intro reqUrl imageUrl mode response ct metadata webpEncodeAt
      hfav hok hct hsw hbig
    have hne : response.body.length ≠ 0 := by
      unfold MAX_INPUT_SIZE_BYTES at hbig
      omega
    unfold TargetSize.handler
    simp [hfav, hok, hct, hsw, hne, hbig]
  · intro reqUrl imageUrl response ct metadata avifEncode webpEncode
      hfav hok hct hsw hbig
    have hne : response.body.length ≠ 0 := by
      unfold MAX_INPUT_SIZE_BYTES at hbig
      omega
    unfold DualRace.handler
    simp [hfav, hok, hct, hsw, hne, hbig]
  · intro imageUrl debug headResponse fetched metadata avifEncode n
      hcl hbig
    have hd : declaredTooLarge headResponse.contentLength = true := by
      rw [hcl]
      simp [declaredTooLarge, hbig]
    unfold IndexAvif.handler
    simp [hd]

/-- C4 witness: a 30 MiB + 1 body is redirected by the compress.js WebP
handler, and a HEAD-declared 30 MiB + 1 `content-length` triggers the
`api/index.js` placeholder. -/
theorem size_limit_enforcement_witness :
    CompressWebp.handler "/img" (some "u") true
        (some ⟨true, some "image/png",
          List.replicate (MAX_INPUT_SIZE_BYTES + 1) 0⟩)
        none (fun _ => none) = Outcome.redirect "u" ∧
      IndexAvif.handler (some "u") none
        (some ⟨some (MAX_INPUT_SIZE_BYTES + 1)⟩) none none
        (fun _ => none) = Outcome.placeholder :=
  ⟨size_limit_enforcement.1 "/img" "u"
      ⟨true, some "image/png", List.replicate (MAX_INPUT_SIZE_BYTES + 1) 0⟩
      "image/png" none (fun _ => none) (by decide) rfl rfl (by decide)
      (by simp),
    size_limit_enforcement.2.2.2 "u" none ⟨some (MAX_INPUT_SIZE_BYTES + 1)⟩
      none none (fun _ => none) (MAX_INPUT_SIZE_BYTES + 1) rfl
      (by simp)⟩

/-- C5 counterexample: in `api/index.js` a fetched response with NO
declared content-type is not rejected as NotAnImage — the default
`image/jpeg` is substituted and the bytes are served as an image (here
the 3-byte body passes through because its encode is larger),
contradicting the claim for this handler variant. -/
theorem missing_content_type_still_served_index :
    IndexAvif.handler (some "u") none (some ⟨none⟩)
        (some ⟨true, none, [1, 2, 3]⟩) (some ⟨some 1, none, none, none⟩)
        (fun _ => some [9, 9, 9, 9]) =
      Outcome.passthrough [1, 2, 3] "image/jpeg" 3 3 ∧
      servedBody
        (IndexAvif.handler (some "u") none (some ⟨none⟩)
          (some ⟨true, none, [1, 2, 3]⟩)
          (some ⟨some 1, none, none, none⟩)
          (fun _ => some [9, 9, 9, 9])) = some [1, 2, 3] := by
  decide

/-- C5 (amended): the four variants other than `api/index.js` fail on an
absent content-type header, and on a declared content-type that does not
start with `image/`, with their fallback redirect — the bytes are never
transcoded or served; `api/index.js` instead substitutes `image/jpeg`
for an absent content-type and proceeds (see the counterexample). -/
theorem non_image_content_type_redirects :
    (∀ reqUrl imageUrl (response : FetchResponse) metadata webpEncode,
      includes reqUrl "favicon" = false →
      response.ok = true →
      (response.contentType = none ∨
        (∃ s, response.contentType = some s ∧
          startsWithJs s "image/" = false)) →
      CompressWebp.handler reqUrl (some imageUrl) true (some response)
        metadata webpEncode = Outcome.redirect imageUrl) ∧
    (∀ reqUrl imageUrl mode (response : FetchResponse) metadata
        webpEncodeAt,
      includes reqUrl "favicon" = false →
      response.ok = true →
      (response.contentType = none ∨
        (∃ s, response.contentType = some s ∧
          startsWithJs s "image/" = false)) →
      TargetSize.handler reqUrl (some imageUrl) mode true (some response)
        metadata webpEncodeAt = Outcome.redirect imageUrl) ∧
    (∀ reqUrl imageUrl (response : FetchResponse) metadata avifEncode
        webpEncode,
      includes reqUrl "favicon" = false →
      response.ok = true →
      (response.contentType = none ∨
        (∃ s, response.contentType = some s ∧
          startsWithJs s "image/" = false)) →
      DualRace.handler reqUrl (some imageUrl) true (some response)
        metadata avifEncode webpEncode = Outcome.redirect imageUrl) ∧
    (∀ reqUrl imageUrl (response : FetchResponse) metadata webpEncode,
      includes reqUrl "favicon" = false →
      response.ok = true →
      (response.contentType = none ∨
        (∃ s, response.contentType = some s ∧
          startsWithJs s "image/" = false)) →
      Part000Webp.handler reqUrl (some imageUrl) true (some response)
        metadata webpEncode = Outcome.redirect imageUrl) := by
  refine ⟨?_, ?_, ?_, ?_⟩
  · intro reqUrl imageUrl response metadata webpEncode hfav hok hbad
    unfold CompressWebp.handler
    rcases hbad with h | ⟨s, hs, h⟩
    · simp [hfav, hok, h]
    · simp [hfav, hok, hs, h]
  · intro reqUrl imageUrl mode response metadata webpEncodeAt hfav hok hbad
    unfold TargetSize.handler
    rcases hbad with h | ⟨s, hs, h⟩
    · simp [hfav, hok, h]
    · simp [hfav, hok, hs, h]
  · intro reqUrl imageUrl response metadata avifEncode webpEncode
      hfav hok hbad
    unfold DualRace.handler
    rcases hbad with h | ⟨s, hs, h⟩
    · simp [hfav, hok, h]
    · simp [hfav, hok, hs, h]
  · intro reqUrl imageUrl response metadata webpEncode hfav hok hbad
    unfold Part000Webp.handler
    rcases hbad with h | ⟨s, hs, h⟩
    · simp [hfav, hok, h]
    · simp [hfav, hok, hs, h]

/-- C5 witness: an absent content-type is redirected by the compress.js
WebP handler, and a `text/html` content-type is redirected by the
dual-race handler. -/
theorem non_image_content_type_redirects_witness :
    CompressWebp.handler "/img" (some "u") true (some ⟨true, none, [1]⟩)
        none (fun _ => none) = Outcome.redirect "u" ∧
      DualRace.handler "/img" (some "u") true
        (some ⟨true, some "text/html", [1]⟩) none (fun _ => none)
        (fun _ => none) = Outcome.redirect "u" :=
  ⟨non_image_content_type_redirects.1 "/img" "u" ⟨true, none, [1]⟩ none
      (fun _ => none) (by decide) rfl (Or.inl rfl),
    non_image_content_type_redirects.2.2.1 "/img" "u"
      ⟨true, some "text/html", [1]⟩ none (fun _ => none) (fun _ => none)
      (by decide) rfl (Or.inr ⟨"text/html", rfl, by decide⟩)⟩

end ImageProxy
